import Mathlib

/-!
Verification development for the Essai reading-recommendation bot.

The JavaScript source is shallowly embedded: pure computations become Lean
functions, asynchronous calls to external collaborators (the Groq model, the
network, the JS URL parser and regex engine) become explicit oracle
parameters, and JS numbers on the weight path are modelled as rationals.
-/

namespace Essai

/-- Whether the first character list starts with the second. -/
def charsStartWith : List Char → List Char → Bool
  | _, [] => true
  | [], _ :: _ => false
  | c :: cs, d :: ds => c = d && charsStartWith cs ds

/-- Whether the first character list contains the second as a contiguous
run. -/
def charsContain : List Char → List Char → Bool
  | [], pat => pat.isEmpty
  | c :: cs, pat => charsStartWith (c :: cs) pat || charsContain cs pat

/-- JS `String.prototype.includes(pat)`: substring containment; the empty
pattern is always contained. -/
def strContains (s pat : String) : Bool :=
  charsContain s.toList pat.toList

/-- JS `String.prototype.toLowerCase()`: character-wise lower-casing. -/
def jsToLower (s : String) : String :=
  String.mk (s.toList.map Char.toLower)

/-- JS `x || d` for a possibly-absent, possibly-empty string `x`
(`undefined` and `""` are both falsy). -/
def jsOrStr (x : Option String) (d : String) : String :=
  match x with
  | some s => if s = "" then d else s
  | none => d

/-! ## Taste model (src/unnamed/part_000, part_003, part_011, api/webhook.js) -/

/-- `calculateImpact(rating)` from part_000 lines 16-18 and part_011 lines
212-214: `(rating - 3) * 2`. -/
def calculateImpact (rating : Int) : Int :=
  (rating - 3) * 2

/-- A row of the `user_preferences` table as manipulated by
`updateUserPreference` / `setUserPreference` (part_003 lines 181-225). -/
structure PrefRow where
  tag : String
  weight : ℚ
  sample_count : Nat
deriving DecidableEq

/-- The `select ... eq('tag', tag) ... single()` lookup of part_003. -/
def findRow (prof : List PrefRow) (tag : String) : Option PrefRow :=
  prof.find? (fun r => r.tag = tag)

/-- Supabase `upsert` with `onConflict: 'user_id,tag'`: replace the row with
the same tag if present, otherwise insert. -/
def upsertRow (prof : List PrefRow) (row : PrefRow) : List PrefRow :=
  if (prof.find? (fun r => r.tag = row.tag)).isSome then
    prof.map (fun r => if r.tag = row.tag then row else r)
  else
    prof ++ [row]

/-- `updateUserPreference(userId, tag, weightDelta)` (part_003 lines 181-207):
current weight defaults to 50, new weight is
`Math.max(0, Math.min(100, currentWeight + weightDelta))`; returns the new
profile paired with the returned `newWeight`. -/
def updateUserPreference (prof : List PrefRow) (tag : String) (weightDelta : ℚ) :
    List PrefRow × ℚ :=
  let existing := findRow prof tag
  let currentWeight := (existing.map (fun r => r.weight)).getD 50
  let currentCount := (existing.map (fun r => r.sample_count)).getD 0
  let newWeight := max 0 (min 100 (currentWeight + weightDelta))
  (upsertRow prof ⟨tag, newWeight, currentCount + 1⟩, newWeight)

/-- `setUserPreference(userId, tag, weight)` (part_003 lines 209-225 and
api/webhook.js lines 135-146): clamps the input weight into [0,100] and
upserts it with `sample_count: 1`. -/
def setUserPreference (prof : List PrefRow) (tag : String) (weight : ℚ) :
    List PrefRow × ℚ :=
  let clampedWeight := max 0 (min 100 weight)
  (upsertRow prof ⟨tag, clampedWeight, 1⟩, clampedWeight)

/-- `updateTasteFromRating(userId, tags, rating)` (part_000 lines 37-47,
part_011 lines 216-222): computes the impact, returns unchanged when the
impact is 0, otherwise applies `updateUserPreference` to every tag in
order. -/
def updateTasteFromRating (prof : List PrefRow) (tags : List String) (rating : Int) :
    List PrefRow :=
  let impact := calculateImpact rating
  if impact = 0 then prof
  else tags.foldl (fun p tag => (updateUserPreference p tag impact).1) prof

/-- The taste-profile effect of the rating callback (part_004 lines 874-877):
`if (rating > 0 && userRec.recommendations?.tags) await
updateTasteFromRating(user.id, userRec.recommendations.tags, rating)`.
`tags = none` models an absent (falsy) tags field. -/
def handleRatingCallbackTaste (prof : List PrefRow) (tags : Option (List String))
    (rating : Int) : List PrefRow :=
  if rating > 0 ∧ tags.isSome then
    updateTasteFromRating prof (tags.getD []) rating
  else prof

/-! ## Curator pipeline (src/src/services/curator.js, src/unnamed/part_011)

The WHATWG `new URL(...)` constructor is an external library call: it is
modelled as an oracle `UrlParser` mapping a raw URL string to its parsed
protocol and hostname, or `none` when the constructor throws.  The
`encodeURIComponent` builtin is likewise an oracle `String → String`.  The
Groq model call behind each Stage B lookup is an oracle outcome attached to
its idea. -/

/-- Result of `new URL(url)`: the fields the source reads. -/
structure UrlParts where
  protocol : String
  hostname : String
deriving DecidableEq

/-- Oracle for the WHATWG URL parser: `none` models a constructor throw. -/
def UrlParser : Type := String → Option UrlParts

/-- `isValidUrl(url)` (curator.js lines 344-351): parse succeeds and the
protocol is `http:` or `https:`. -/
def isValidUrl (P : UrlParser) (url : String) : Bool :=
  match P url with
  | some parsed => parsed.protocol = "http:" ∨ parsed.protocol = "https:"
  | none => false

/-- `extractDomain(url)` (curator.js lines 353-359): hostname, or `""` when
parsing throws. -/
def extractDomain (P : UrlParser) (url : String) : String :=
  match P url with
  | some parsed => parsed.hostname
  | none => ""

/-- An `ArticleIdea` from Stage A (no URL yet). -/
structure Idea where
  title : String
  author : String
  publication : Option String
  description : String
  reason : String
  tags : List String
  category : String
deriving DecidableEq

/-- A resolved article: the JS spread `{...idea, url, ...}` is modelled by
nesting the idea.  `found_title`/`source` are `none` when the corresponding
field is absent from the object, and `is_search_fallback` is `false` when
absent (JS `undefined` is falsy). -/
structure ResolvedArticle where
  idea : Idea
  url : String
  found_title : Option String
  source : Option String
  is_search_fallback : Bool
deriving DecidableEq

/-- The parsed `{url, found_title, source}` object a Stage B model call
yields (`parseURLResponse` output). -/
structure UrlResp where
  url : Option String
  found_title : Option String
  source : Option String
deriving DecidableEq

/-- Outcome of one Stage B lookup environment: the awaited model call threw,
returned falsy content, or returned content whose parse gave `r`
(`parsed none` models `parseURLResponse` returning `null`). -/
inductive LookupOutcome where
  | threw
  | noContent
  | parsed (r : Option UrlResp)
deriving DecidableEq

/-- `findUrlForArticle(idea)` (curator.js lines 144-179) as a function of the
lookup outcome: on a throw or falsy content it returns `null`; otherwise it
requires `result?.url` truthy and `isValidUrl(result.url)`, and builds
`{...idea, url, found_title: result.found_title || idea.title,
source: result.source || extractDomain(result.url)}`. -/
def findUrlForArticle (P : UrlParser) (idea : Idea) (o : LookupOutcome) :
    Option ResolvedArticle :=
  match o with
  | .threw => none
  | .noContent => none
  | .parsed none => none
  | .parsed (some r) =>
    match r.url with
    | some u =>
      if u ≠ "" ∧ isValidUrl P u then
        some { idea := idea, url := u,
               found_title := some (jsOrStr r.found_title idea.title),
               source := some (jsOrStr r.source (extractDomain P u)),
               is_search_fallback := false }
      else none
    | none => none

/-- The Google-search fallback article built in `findUrlsForIdeas`
(curator.js lines 198-207): url
`https://www.google.com/search?q=` ++ encodeURIComponent of
"title author publication", `is_search_fallback: true`,
`source: 'google.com (search)'`. -/
def googleFallback (enc : String → String) (idea : Idea) : ResolvedArticle :=
  { idea := idea,
    url := "https://www.google.com/search?q=" ++
      enc (idea.title ++ " " ++ idea.author ++ " " ++ idea.publication.getD ""),
    found_title := none,
    source := some "google.com (search)",
    is_search_fallback := true }

/-- `findUrlsForIdeas(ideas)` (curator.js lines 184-211): the per-idea lookup
outcomes are paired with their ideas (`Promise.allSettled` preserves index
order), and each settled result is pushed, in index order, either onto
`articlesWithUrls` or — as a Google-search fallback — onto
`articlesWithoutUrls`. -/
def findUrlsForIdeas (P : UrlParser) (enc : String → String) :
    List (Idea × LookupOutcome) → List ResolvedArticle × List ResolvedArticle
  | [] => ([], [])
  | pr :: rest =>
    let t := findUrlsForIdeas P enc rest
    match findUrlForArticle P pr.1 pr.2 with
    | some a => (a :: t.1, t.2)
    | none => (t.1, googleFallback enc pr.1 :: t.2)

/-- JS `t.toLowerCase().trim()` used by the title dedup. -/
def lowerTrim (s : String) : String :=
  (jsToLower s).trim

/-- The title-dedup safety net of `generateRecommendation` (curator.js lines
236-244): keep ideas whose lower-cased trimmed title is not in the seen-title
set. -/
def freshIdeas (existingTitles : List String) (prs : List (Idea × LookupOutcome)) :
    List (Idea × LookupOutcome) :=
  prs.filter (fun pr => ¬ existingTitles.any (fun t => lowerTrim t = lowerTrim pr.1.title))

/-- `ideasToUse = freshIdeas.length > 0 ? freshIdeas : ideas` (curator.js
line 245). -/
def ideasToUse (existingTitles : List String) (prs : List (Idea × LookupOutcome)) :
    List (Idea × LookupOutcome) :=
  if freshIdeas existingTitles prs ≠ [] then freshIdeas existingTitles prs else prs

/-- The post-Stage-B candidate list of `generateRecommendation` (curator.js
lines 251-257): `[...articlesWithUrls, ...articlesWithoutUrls]` filtered to
drop articles whose URL is in `existingUrls`. -/
def allCandidates (P : UrlParser) (enc : String → String)
    (existingTitles existingUrls : List String)
    (prs : List (Idea × LookupOutcome)) : List ResolvedArticle :=
  let step2 := findUrlsForIdeas P enc (ideasToUse existingTitles prs)
  (step2.1 ++ step2.2).filter (fun a => ¬ existingUrls.contains a.url)

/-- `generateRecommendation(preferences, existingUrls, existingTitles)`
(curator.js lines 222-276) after Stage A: Stage A output (with each idea
paired to its Stage B environment outcome) is title-deduped with a
keep-nonempty fallback, resolved by Stage B, URL-deduped, and the first
remaining article becomes the primary with the rest as alternatives.  The
two `throw new Error(...)` sites become `Except.error`. -/
def generateRecommendation (P : UrlParser) (enc : String → String)
    (prs : List (Idea × LookupOutcome)) (existingUrls existingTitles : List String) :
    Except String (ResolvedArticle × List ResolvedArticle) :=
  match prs with
  | [] => .error "No ideas generated in Step 1"
  | _ :: _ =>
    match allCandidates P enc existingTitles existingUrls prs with
    | [] => .error "No articles found after deduplication"
    | a :: rest => .ok (a, rest)

/-! ## part_011 pipeline copy (src/unnamed/part_011 lines 347-398) -/

/-- part_011 `findUrlForArticle` (lines 347-371): identical gate to the
curator.js copy, but the success object is
`{...idea, url, source: result.source || ''}` (no `found_title`). -/
def p11FindUrlForArticle (P : UrlParser) (idea : Idea) (o : LookupOutcome) :
    Option ResolvedArticle :=
  match o with
  | .threw => none
  | .noContent => none
  | .parsed none => none
  | .parsed (some r) =>
    match r.url with
    | some u =>
      if u ≠ "" ∧ isValidUrl P u then
        some { idea := idea, url := u, found_title := none,
               source := some (jsOrStr r.source ""), is_search_fallback := false }
      else none
    | none => none

/-- part_011 fallback article (line 389):
`{...idea, url: google-search URL, is_search_fallback: true}` (no source). -/
def p11Fallback (enc : String → String) (idea : Idea) : ResolvedArticle :=
  { idea := idea,
    url := "https://www.google.com/search?q=" ++
      enc (idea.title ++ " " ++ idea.author ++ " " ++ idea.publication.getD ""),
    found_title := none,
    source := none,
    is_search_fallback := true }

/-- One entry of part_011 `generateRecommendation`'s `articles` list (lines
383-391): the lookup result when settled with a value, else the fallback. -/
def p11ResolveOne (P : UrlParser) (enc : String → String)
    (pr : Idea × LookupOutcome) : ResolvedArticle :=
  match p11FindUrlForArticle P pr.1 pr.2 with
  | some a => a
  | none => p11Fallback enc pr.1

/-- part_011 `articles` (lines 382-391): one resolved article per idea,
pushed in index order. -/
def p11Articles (P : UrlParser) (enc : String → String)
    (prs : List (Idea × LookupOutcome)) : List ResolvedArticle :=
  prs.map (p11ResolveOne P enc)

/-- part_011 `generateRecommendation` (lines 373-398): `articles[0]` becomes
the primary and `articles.slice(1)` the alternatives. -/
def p11GenerateRecommendation (P : UrlParser) (enc : String → String)
    (prs : List (Idea × LookupOutcome)) :
    Except String (ResolvedArticle × List ResolvedArticle) :=
  match prs with
  | [] => .error "No ideas generated"
  | pr :: rest => .ok (p11ResolveOne P enc pr, p11Articles P enc rest)

/-! ## Link verifier (src/src/services/linkVerifier.js second implementation,
lines 224-570, and src/unnamed/part_011 lines 400-462)

The network is an oracle (`NetEnv`): the HEAD and GET requests each either
return a response or throw a coded error.  The regex-based HTML helpers
(`extractTitle` and the soft-404 pattern scan) are JS-regex computations on
the fetched body; they are modelled as an opaque `HtmlOps` oracle, and every
theorem below holds for all of its behaviours. -/

/-- A `VerificationResult`; absent JS fields are `none` / `false`
(`undefined` is falsy where the field is read as a boolean). -/
structure VerificationResult where
  isValid : Bool
  confidence : String
  status : Option Nat
  title : Option String
  reason : Option String
  isPaywall : Bool
  isSearchFallback : Bool
  isPdf : Bool
deriving DecidableEq

/-- An axios error: `code` is `error.code || ''`, `message` is
`error.message` (`""` when absent). -/
structure NetError where
  code : String
  message : String
deriving DecidableEq

/-- The fields the verifier reads from a HEAD response. -/
structure HeadResponse where
  status : Nat
  contentType : String
deriving DecidableEq

/-- The fields the verifier reads from a GET response; `body` is
`typeof data === 'string' ? data : ''`. -/
structure GetResponse where
  status : Nat
  body : String
deriving DecidableEq

/-- Network oracle for one `verifyLink` run. -/
structure NetEnv where
  head : Except NetError HeadResponse
  get : Except NetError GetResponse

/-- Oracle for the regex-based HTML helpers: `extractTitle(html)` (lines
307-310) and the soft-404 `notFoundPatterns.some(p => p.test(html))` scan
(lines 428-434). -/
structure HtmlOps where
  extractTitle : String → String
  soft404 : String → Bool

/-- `TRUSTED_DOMAINS` (linkVerifier.js lines 248-265). -/
def TRUSTED_DOMAINS : List String :=
  ["aeon.co", "paulgraham.com", "gwern.net",
   "astralcodexten.substack.com", "substack.com",
   "arxiv.org", "ssrn.com", "nber.org",
   "jstor.org", "philpapers.org",
   "plato.stanford.edu",
   "medium.com", "wikipedia.org",
   "theatlantic.com", "newyorker.com", "nybooks.com",
   "lrb.co.uk", "theguardian.com",
   "econlib.org", "libertyfund.org",
   "gutenberg.org", "archive.org",
   "researchgate.net", "academia.edu",
   "lesswrong.com", "overcomingbias.com",
   "marginalrevolution.com", "slatestarcodex.com",
   "nautil.us", "quillette.com",
   "thenewatlantis.com", "worksinprogress.co",
   "nplusonemag.com"]

/-- `PAYWALL_DOMAINS` (linkVerifier.js lines 268-272). -/
def PAYWALL_DOMAINS : List String :=
  ["nytimes.com", "wsj.com", "ft.com",
   "economist.com", "wired.com",
   "hbr.org", "foreignaffairs.com"]

/-- `isTrustedDomain(url)` (lines 277-282): hostname lower-cased contains
some trusted domain; `false` when `new URL` throws. -/
def isTrustedDomain (P : UrlParser) (url : String) : Bool :=
  match P url with
  | some parsed => TRUSTED_DOMAINS.any (fun d => strContains (jsToLower parsed.hostname) d)
  | none => false

/-- `isPaywallDomain(url)` (lines 287-292). -/
def isPaywallDomain (P : UrlParser) (url : String) : Bool :=
  match P url with
  | some parsed => PAYWALL_DOMAINS.any (fun d => strContains (jsToLower parsed.hostname) d)
  | none => false

/-- `isSearchFallback(url)` (lines 297-302): lower-cased hostname contains
`google.com` and the raw URL contains `/search?`. -/
def isSearchFallback (P : UrlParser) (url : String) : Bool :=
  match P url with
  | some parsed =>
    strContains (jsToLower parsed.hostname) "google.com" && strContains url "/search?"
  | none => false

/-- JS whitespace for the `\s` character class (ASCII part). -/
def jsIsWs (c : Char) : Bool :=
  c = ' ' ∨ c = '\t' ∨ c = '\n' ∨ c = '\r' ∨ c = '\x0b' ∨ c = '\x0c'

/-- The `\w` character class `[A-Za-z0-9_]`. -/
def jsIsWordChar (c : Char) : Bool :=
  c.isAlpha ∨ c.isDigit ∨ c = '_'

/-- `clean(str)` inside `titleMatchScore` (line 319):
`str.toLowerCase().replace(/[^\w\s]/g, '')`. -/
def jsClean (s : String) : String :=
  String.mk ((jsToLower s).toList.filter (fun c => jsIsWordChar c ∨ jsIsWs c))

/-- JS `str.split(/\s+/)`: maximal whitespace runs separate the pieces, with
an empty piece kept at an end that begins or ends with whitespace. -/
def jsSplitWs (s : String) : List String :=
  match s.toList.head?, s.toList.getLast? with
  | some c0, some cl =>
    let words := (s.split jsIsWs).filter (fun w => w ≠ "")
    (if jsIsWs c0 then [""] else []) ++ words ++ (if jsIsWs cl then [""] else [])
  | _, _ => [""]

/-- `titleMatchScore(expectedTitle, actualTitle)` (lines 316-327): keyword
overlap ratio between the cleaned expected-title words longer than 3
characters and the cleaned actual title, as an exact rational. -/
def titleMatchScore (expectedTitle actualTitle : String) : ℚ :=
  if expectedTitle = "" ∨ actualTitle = "" then 0
  else
    let expectedWords := (jsSplitWs (jsClean expectedTitle)).filter (fun w => w.length > 3)
    let actualStr := jsClean actualTitle
    if expectedWords.length = 0 then 1
    else ((expectedWords.filter (fun w => strContains actualStr w)).length : ℚ) /
      (expectedWords.length : ℚ)

/-- Strategy 2 of `verifyLink` (lines 399-546): the full GET with content
inspection, and its catch block. -/
def verifyLinkGet (H : HtmlOps) (isTrusted isPaywall : Bool)
    (expectedTitle : String) (res : Except NetError GetResponse) :
    VerificationResult :=
  match res with
  | .ok resp =>
    let status := resp.status
    let pageTitle := H.extractTitle resp.body
    if status = 404 ∨ status = 410 then
      { isValid := false, confidence := "high", status := some status,
        title := some pageTitle, reason := some "Page not found",
        isPaywall := false, isSearchFallback := false, isPdf := false }
    else if status = 200 ∧ resp.body.length < 5000 ∧ H.soft404 resp.body then
      { isValid := false, confidence := "medium", status := some status,
        title := some pageTitle, reason := some "Content appears removed (soft 404)",
        isPaywall := false, isSearchFallback := false, isPdf := false }
    else if 200 ≤ status ∧ status < 400 then
      let base :=
        if expectedTitle ≠ "" ∧ pageTitle ≠ "" then
          let score := titleMatchScore expectedTitle pageTitle
          if score ≥ 3 / 10 then (("high" : String), (none : Option String))
          else if score = 0 ∧ (jsSplitWs expectedTitle).length > 2 then
            ("low", some "Title mismatch - page may not be the expected article")
          else ("medium", none)
        else ("medium", none)
      { isValid := true, confidence := if isTrusted then "high" else base.1,
        status := some status, title := some pageTitle, reason := base.2,
        isPaywall := isPaywall, isSearchFallback := false, isPdf := false }
    else if status = 401 ∨ status = 403 then
      { isValid := true, confidence := "medium", status := some status,
        title := some pageTitle, reason := some "Login or subscription required",
        isPaywall := true, isSearchFallback := false, isPdf := false }
    else if 500 ≤ status then
      { isValid := false, confidence := "low", status := some status,
        title := none, reason := some ("Server error (" ++ toString status ++ ")"),
        isPaywall := false, isSearchFallback := false, isPdf := false }
    else
      { isValid := false, confidence := "medium", status := some status,
        title := none, reason := some ("HTTP " ++ toString status),
        isPaywall := false, isSearchFallback := false, isPdf := false }
  | .error e =>
    if e.code = "ENOTFOUND" then
      { isValid := false, confidence := "high", status := none, title := none,
        reason := some "Domain not found", isPaywall := false,
        isSearchFallback := false, isPdf := false }
    else if e.code = "ECONNREFUSED" then
      { isValid := false, confidence := "high", status := none, title := none,
        reason := some "Connection refused", isPaywall := false,
        isSearchFallback := false, isPdf := false }
    else if e.code = "ECONNABORTED" ∨ strContains e.message "timeout" then
      { isValid := false, confidence := "low", status := none, title := none,
        reason := some "Timeout", isPaywall := false,
        isSearchFallback := false, isPdf := false }
    else if strContains e.code "SSL" ∨ strContains e.code "CERT" then
      { isValid := true, confidence := "low", status := none, title := none,
        reason := some "SSL certificate issue", isPaywall := false,
        isSearchFallback := false, isPdf := false }
    else if isPaywall ∨ isTrusted then
      { isValid := true, confidence := "low", status := none, title := none,
        reason := some "Verification blocked (trusted domain)",
        isPaywall := isPaywall, isSearchFallback := false, isPdf := false }
    else
      { isValid := false, confidence := "low", status := none, title := none,
        reason := some (jsOrStr (some e.code) (jsOrStr (some e.message) "Network error")),
        isPaywall := false, isSearchFallback := false, isPdf := false }

/-- `verifyLink(url, expectedTitle)` (linkVerifier.js lines 336-547):
search-fallback short-circuit, then the HEAD probe (strategy 1), falling
through to the GET strategy on an inconclusive or thrown HEAD. -/
def verifyLink (P : UrlParser) (H : HtmlOps) (net : NetEnv)
    (url expectedTitle : String) : VerificationResult :=
  if isSearchFallback P url then
    { isValid := true, confidence := "low", status := none, title := none,
      reason := some "Search fallback URL", isPaywall := false,
      isSearchFallback := true, isPdf := false }
  else
    let isPaywall := isPaywallDomain P url
    let isTrusted := isTrustedDomain P url
    match net.head with
    | .ok h =>
      if 200 ≤ h.status ∧ h.status < 400 then
        if strContains (jsToLower h.contentType) "pdf" then
          { isValid := true, confidence := "high", status := some h.status,
            title := none, reason := none, isPaywall := false,
            isSearchFallback := false, isPdf := true }
        else if isTrusted ∨ isPaywall then
          { isValid := true, confidence := if isTrusted then "high" else "medium",
            status := some h.status, title := none, reason := none,
            isPaywall := isPaywall, isSearchFallback := false, isPdf := false }
        else verifyLinkGet H isTrusted isPaywall expectedTitle net.get
      else if h.status = 404 ∨ h.status = 410 then
        { isValid := false, confidence := "high", status := some h.status,
          title := none, reason := some "Page not found", isPaywall := false,
          isSearchFallback := false, isPdf := false }
      else verifyLinkGet H isTrusted isPaywall expectedTitle net.get
    | .error _ => verifyLinkGet H isTrusted isPaywall expectedTitle net.get

/-! ## part_011 verifier copy (lines 400-462) -/

/-- part_011 `TRUSTED_DOMAINS` (lines 408-414). -/
def P11_TRUSTED_DOMAINS : List String :=
  ["aeon.co", "paulgraham.com", "gwern.net", "substack.com", "arxiv.org", "ssrn.com",
   "nber.org", "jstor.org", "plato.stanford.edu", "medium.com", "wikipedia.org",
   "theatlantic.com", "newyorker.com", "econlib.org", "gutenberg.org", "archive.org",
   "lesswrong.com", "marginalrevolution.com", "nautil.us", "quillette.com",
   "thenewatlantis.com", "worksinprogress.co", "theguardian.com", "researchgate.net"]

/-- part_011 `PAYWALL_DOMAINS` (line 416). -/
def P11_PAYWALL_DOMAINS : List String :=
  ["nytimes.com", "wsj.com", "ft.com", "economist.com", "wired.com", "hbr.org"]

/-- part_011 `isDomainInList(url, list)` (lines 418-421). -/
def isDomainInList (P : UrlParser) (url : String) (list : List String) : Bool :=
  match P url with
  | some parsed => list.any (fun d => strContains (jsToLower parsed.hostname) d)
  | none => false

/-- part_011 `isSearchFallbackUrl(url)` (lines 423-426): hostname (not
lower-cased here) contains `google.com` and the raw URL contains
`/search?`. -/
def isSearchFallbackUrl (P : UrlParser) (url : String) : Bool :=
  match P url with
  | some parsed => strContains parsed.hostname "google.com" && strContains url "/search?"
  | none => false

/-- part_011 `verifyLink(url, expectedTitle)` (lines 428-462): single GET
strategy with a smaller catch block. -/
def p11VerifyLink (P : UrlParser) (net : Except NetError GetResponse)
    (url expectedTitle : String) : VerificationResult :=
  if isSearchFallbackUrl P url then
    { isValid := true, confidence := "low", status := none, title := none,
      reason := none, isPaywall := false, isSearchFallback := true, isPdf := false }
  else
    let isTrusted := isDomainInList P url P11_TRUSTED_DOMAINS
    let isPaywall := isDomainInList P url P11_PAYWALL_DOMAINS
    match net with
    | .ok resp =>
      if resp.status = 404 ∨ resp.status = 410 then
        { isValid := false, confidence := "high", status := some resp.status,
          title := none, reason := some "Page not found", isPaywall := false,
          isSearchFallback := false, isPdf := false }
      else if 200 ≤ resp.status ∧ resp.status < 400 then
        { isValid := true, confidence := if isTrusted then "high" else "medium",
          status := some resp.status, title := none, reason := none,
          isPaywall := isPaywall, isSearchFallback := false, isPdf := false }
      else if resp.status = 401 ∨ resp.status = 403 then
        { isValid := true, confidence := "medium", status := some resp.status,
          title := none, reason := some "Login required", isPaywall := true,
          isSearchFallback := false, isPdf := false }
      else
        { isValid := false, confidence := "low", status := some resp.status,
          title := none, reason := some ("HTTP " ++ toString resp.status),
          isPaywall := false, isSearchFallback := false, isPdf := false }
    | .error e =>
      if e.code = "ENOTFOUND" then
        { isValid := false, confidence := "high", status := none, title := none,
          reason := some "Domain not found", isPaywall := false,
          isSearchFallback := false, isPdf := false }
      else if isTrusted ∨ isPaywall then
        { isValid := true, confidence := "low", status := none, title := none,
          reason := some "Trusted domain (check blocked)", isPaywall := isPaywall,
          isSearchFallback := false, isPdf := false }
      else
        { isValid := false, confidence := "low", status := none, title := none,
          reason := some (jsOrStr (some e.code) e.message), isPaywall := false,
          isSearchFallback := false, isPdf := false }

/-! ## Recommendation assembler: primary/alternative selection
(src/unnamed/part_011 lines 539-558, src/unnamed/part_004 lines 596-615)

`handleRecommend` verifies the primary; when that fails and alternatives
exist it walks the alternatives in order and promotes the first one whose
verification is valid, attaching `article.alternatives.filter(a => a !== alt)`
as the delivered alternatives.  The verifier is abstracted as a function from
(url, expected title) to a `VerificationResult`.  JS `!==` is reference
inequality; the pipeline builds the alternatives as distinct objects, which
the theorems mirror with a `Nodup` hypothesis over the structural equality
used here. -/

/-- The `for (const alt of article.alternatives) ... if (altVerify.isValid)
... break` loop: the first alternative whose verification is valid. -/
def firstValidAlt (vf : String → String → VerificationResult) :
    List ResolvedArticle → Option ResolvedArticle
  | [] => none
  | a :: rest =>
    if (vf a.url a.idea.title).isValid then some a else firstValidAlt vf rest

/-- The delivered (primary, alternatives) pair of `handleRecommend`: the
original pair unless the primary fails verification and some alternative
passes, in which case the first passing alternative is promoted and removed
from the alternatives list. -/
def selectDelivered (vf : String → String → VerificationResult)
    (article : ResolvedArticle) (alternatives : List ResolvedArticle) :
    ResolvedArticle × List ResolvedArticle :=
  let verification := vf article.url article.idea.title
  if ¬ verification.isValid ∧ alternatives ≠ [] then
    match firstValidAlt vf alternatives with
    | some alt => (alt, alternatives.filter (fun a => a != alt))
    | none => (article, alternatives)
  else (article, alternatives)

/-! ## Concrete fixtures used by witnesses and counterexamples -/

/-- Fixture idea "A" by "AA". -/
def exIdeaA : Idea :=
  ⟨"A", "AA", none, "", "", [], "gem"⟩

/-- Fixture idea "B" by "BB". -/
def exIdeaB : Idea :=
  ⟨"B", "BB", none, "", "", [], "classic"⟩

/-- Identity encodeURIComponent oracle (its value on these fixture queries,
which contain no characters the real builtin escapes beyond spaces, is
irrelevant to every statement using it). -/
def exEnc : String → String :=
  fun s => s

/-- URL-parser oracle that always throws. -/
def exNoParse : UrlParser :=
  fun _ => none

/-- URL-parser oracle recognising the fixture article URL. -/
def exParser : UrlParser :=
  fun s => if s = "https://ok.example/x" then some ⟨"https:", "ok.example"⟩ else none

/-- A Stage B outcome resolving to the fixture article URL. -/
def exLookupB : LookupOutcome :=
  .parsed (some ⟨some "https://ok.example/x", none, none⟩)

/-- Fixture primary article with a dead URL. -/
def exArtP : ResolvedArticle :=
  ⟨exIdeaA, "https://bad.example/p", none, none, false⟩

/-- Fixture alternative article with a live URL. -/
def exArtA1 : ResolvedArticle :=
  ⟨exIdeaB, "https://good.example/a", none, none, false⟩

/-- Fixture verifier: valid exactly on the live fixture URL. -/
def exVerifier : String → String → VerificationResult :=
  fun url _ =>
    if url = "https://good.example/a" then
      ⟨true, "high", some 200, none, none, false, false, false⟩
    else
      ⟨false, "high", some 404, none, some "Page not found", false, false, false⟩

/-- HTML-helper oracle used in concrete runs. -/
def exHtml : HtmlOps :=
  ⟨fun _ => "", fun _ => false⟩

/-- URL-parser oracle recognising a trusted-domain URL. -/
def exTrustedParser : UrlParser :=
  fun s => if s = "https://aeon.co/essays/x" then some ⟨"https:", "aeon.co"⟩ else none

/-- URL-parser oracle recognising a Google search URL. -/
def exGoogleParser : UrlParser :=
  fun s =>
    if s = "https://www.google.com/search?q=x" then some ⟨"https:", "www.google.com"⟩
    else none

/-- Network oracle in which both requests throw the given error. -/
def exNetThrow (code message : String) : NetEnv :=
  ⟨.error ⟨code, message⟩, .error ⟨code, message⟩⟩

/-- C7: for every rating r in {0,1,2,3,4,5}, `calculateImpact` returns
`(r - 3) * 2`, mapping 0,1,2,3,4,5 to -6,-4,-2,0,2,4 respectively, and is
monotone non-decreasing in the rating. -/
theorem calculateImpact_table_and_monotone :
    ([0, 1, 2, 3, 4, 5] : List Int).map calculateImpact = [-6, -4, -2, 0, 2, 4] ∧
    ∀ r s : Int, r ≤ s → calculateImpact r ≤ calculateImpact s := by
  refine ⟨by decide, fun r s h => ?_⟩
  simp only [calculateImpact]
  omega

/-- Witness for C7: monotonicity applied at ratings 1 and 2. -/
theorem calculateImpact_table_and_monotone_witness :
    calculateImpact 1 ≤ calculateImpact 2 :=
  calculateImpact_table_and_monotone.2 1 2 (by decide)

/-- C8: every operation that writes a tag weight persists a value in [0,100]:
`setUserPreference` clamps its input and `updateUserPreference` stores
`clamp(currentWeight + impact, 0, 100)` — for all inputs, hence in particular
for current weights in [0,100] and impacts in [-6,4] — and it saturates at
the boundaries: weight 98 with the rating-5 impact (+4) becomes 100, and
weight 2 with the rating-0 impact (-6) becomes 0. -/
theorem weight_writes_clamped :
    (∀ prof tag w, 0 ≤ (setUserPreference prof tag w).2 ∧
      (setUserPreference prof tag w).2 ≤ 100) ∧
    (∀ prof tag d, 0 ≤ (updateUserPreference prof tag d).2 ∧
      (updateUserPreference prof tag d).2 ≤ 100) ∧
    (updateUserPreference [⟨"Economics", 98, 1⟩] "Economics"
      ((calculateImpact 5 : Int) : ℚ)).2 = 100 ∧
    (updateUserPreference [⟨"Economics", 2, 1⟩] "Economics"
      ((calculateImpact 0 : Int) : ℚ)).2 = 0 := by
  refine ⟨fun prof tag w => ⟨le_max_left 0 _, ?_⟩,
    fun prof tag d => ⟨le_max_left 0 _, ?_⟩,
    by norm_num [updateUserPreference, findRow, calculateImpact, max_def, min_def],
    by norm_num [updateUserPreference, findRow, calculateImpact, max_def, min_def]⟩
  · exact max_le (by norm_num) (min_le_left 100 w)
  · exact max_le (by norm_num) (min_le_left 100 _)

/-- C9: submitting a rating of 0 (skip) through the rating callback leaves the
preference profile entirely unchanged: the `rating > 0` guard in the callback
skips `updateTasteFromRating`, so no tag weight is modified. -/
theorem skip_rating_leaves_profile_unchanged :
    ∀ prof tags, handleRatingCallbackTaste prof tags 0 = prof := by
  intro prof tags
  simp [handleRatingCallbackTaste]

/-! ### Stage B characterization lemmas -/

/-- The successful-lookup bucket of Stage B collects, in index order, exactly
the ideas whose lookup produced an article. -/
theorem findUrlsForIdeas_fst (P : UrlParser) (enc : String → String) :
    ∀ prs : List (Idea × LookupOutcome),
      (findUrlsForIdeas P enc prs).1 =
        prs.filterMap (fun pr => findUrlForArticle P pr.1 pr.2)
  | [] => rfl
  | pr :: rest => by
    cases h : findUrlForArticle P pr.1 pr.2 <;>
      simp [findUrlsForIdeas, h, findUrlsForIdeas_fst P enc rest]

/-- The fallback bucket of Stage B collects, in index order, the Google-search
fallbacks of exactly the ideas whose lookup failed. -/
theorem findUrlsForIdeas_snd (P : UrlParser) (enc : String → String) :
    ∀ prs : List (Idea × LookupOutcome),
      (findUrlsForIdeas P enc prs).2 =
        (prs.filter (fun pr => (findUrlForArticle P pr.1 pr.2).isNone)).map
          (fun pr => googleFallback enc pr.1)
  | [] => rfl
  | pr :: rest => by
    cases h : findUrlForArticle P pr.1 pr.2 <;>
      simp [findUrlsForIdeas, h, findUrlsForIdeas_snd P enc rest]

/-- Stage B emits one article per input idea. -/
theorem findUrlsForIdeas_length (P : UrlParser) (enc : String → String) :
    ∀ prs : List (Idea × LookupOutcome),
      (findUrlsForIdeas P enc prs).1.length + (findUrlsForIdeas P enc prs).2.length
        = prs.length
  | [] => rfl
  | pr :: rest => by
    have ih := findUrlsForIdeas_length P enc rest
    cases h : findUrlForArticle P pr.1 pr.2 <;>
      simp [findUrlsForIdeas, h] <;> omega

/-- C3: every idea entering Stage B appears in Stage B's output: an idea
whose lookup outcome yields an article contributes that article, an idea
whose lookup fails (the call threw, returned no content, parsed to nothing,
or yielded a URL failing the http/https protocol check inside
`findUrlForArticle`) contributes a Google-search fallback flagged
`is_search_fallback` whose URL is built from title+author+publication, and
the two output buckets together have exactly one entry per idea. -/
theorem stageB_never_drops_ideas :
    ∀ (P : UrlParser) (enc : String → String) (prs : List (Idea × LookupOutcome)),
      ((findUrlsForIdeas P enc prs).1.length + (findUrlsForIdeas P enc prs).2.length
        = prs.length) ∧
      (∀ pr ∈ prs, ∀ a, findUrlForArticle P pr.1 pr.2 = some a →
        a ∈ (findUrlsForIdeas P enc prs).1) ∧
      (∀ pr ∈ prs, findUrlForArticle P pr.1 pr.2 = none →
        googleFallback enc pr.1 ∈ (findUrlsForIdeas P enc prs).2) ∧
      (∀ idea, (googleFallback enc idea).is_search_fallback = true ∧
        (googleFallback enc idea).url = "https://www.google.com/search?q=" ++
          enc (idea.title ++ " " ++ idea.author ++ " " ++ idea.publication.getD "")) := by
  intro P enc prs
  refine ⟨findUrlsForIdeas_length P enc prs, ?_, ?_, fun idea => ⟨rfl, rfl⟩⟩
  · intro pr hpr a ha
    rw [findUrlsForIdeas_fst]
    exact List.mem_filterMap.mpr ⟨pr, hpr, ha⟩
  · intro pr hpr h
    rw [findUrlsForIdeas_snd]
    exact List.mem_map.mpr ⟨pr, List.mem_filter.mpr ⟨hpr, by simp [h]⟩, rfl⟩

/-- Witness for C3: a single idea whose lookup threw is represented by its
Google-search fallback in the fallback bucket. -/
theorem stageB_never_drops_ideas_witness :
    googleFallback exEnc exIdeaA ∈
      (findUrlsForIdeas exNoParse exEnc [(exIdeaA, .threw)]).2 :=
  (stageB_never_drops_ideas exNoParse exEnc [(exIdeaA, .threw)]).2.2.1
    (exIdeaA, .threw) (by simp) rfl

/-- C4 counterexample: with two ideas where idea 0's lookup throws and idea
1's lookup succeeds, curator.js's assembled candidate list (no seen titles or
URLs) places idea 1's article before idea 0's fallback, so the article
derived from idea 0 does not precede the article derived from idea 1. -/
theorem curator_ordering_inverted_cex :
    ([(exIdeaA, LookupOutcome.threw), (exIdeaB, exLookupB)].map (fun pr => pr.1.title)
      = ["A", "B"]) ∧
    ((allCandidates exParser exEnc [] [] [(exIdeaA, .threw), (exIdeaB, exLookupB)]).map
      (fun a => a.idea.title) = ["B", "A"]) :=
  ⟨rfl, rfl⟩

/-- C4 (amended): Stage B ordering is index-preserving only per bucket.  In
the part_011 pipeline the assembled list has exactly the article derived from
idea i at position i.  In curator.js, index order holds within the
successful-lookup bucket and within the fallback bucket, and the assembled
candidate list (before any URL dedup) is the successful bucket followed by
the fallback bucket, so every successful-lookup article precedes every
fallback article regardless of idea order. -/
theorem stageB_ordering_by_bucket :
    (∀ (P : UrlParser) (enc : String → String) (prs : List (Idea × LookupOutcome))
      (i : Nat),
      (p11Articles P enc prs).get? i = (prs.get? i).map (p11ResolveOne P enc)) ∧
    (∀ (P : UrlParser) (enc : String → String) (prs : List (Idea × LookupOutcome)),
      (findUrlsForIdeas P enc prs).1 =
        prs.filterMap (fun pr => findUrlForArticle P pr.1 pr.2) ∧
      (findUrlsForIdeas P enc prs).2 =
        (prs.filter (fun pr => (findUrlForArticle P pr.1 pr.2).isNone)).map
          (fun pr => googleFallback enc pr.1)) ∧
    (∀ (P : UrlParser) (enc : String → String) (prs : List (Idea × LookupOutcome)),
      allCandidates P enc [] [] prs =
        (findUrlsForIdeas P enc prs).1 ++ (findUrlsForIdeas P enc prs).2) := by
  refine ⟨fun P enc prs i => ?_, fun P enc prs =>
    ⟨findUrlsForIdeas_fst P enc prs, findUrlsForIdeas_snd P enc prs⟩,
    fun P enc prs => ?_⟩
  · simp [p11Articles]
  · simp [allCandidates, ideasToUse, freshIdeas]

/-- C2 counterexample: one idea whose lookup throws yields a non-empty
pre-filter candidate list (its Google fallback), yet with that fallback URL
already seen the URL dedup eliminates every candidate and
`generateRecommendation` fails rather than falling back to the unfiltered
list. -/
theorem url_dedup_empty_throws_cex :
    ((findUrlsForIdeas exNoParse exEnc (ideasToUse [] [(exIdeaA, LookupOutcome.threw)])).1
      ++ (findUrlsForIdeas exNoParse exEnc (ideasToUse [] [(exIdeaA, LookupOutcome.threw)])).2
      = [googleFallback exEnc exIdeaA]) ∧
    generateRecommendation exNoParse exEnc [(exIdeaA, .threw)]
      ["https://www.google.com/search?q=A AA "] [] =
      .error "No articles found after deduplication" :=
  ⟨rfl, rfl⟩

/-- C2 (amended): the keep-nonempty fallback exists only at the title-dedup
step — `ideasToUse` is never empty when Stage A produced ideas — while the
URL dedup has no such fallback: whenever it eliminates every candidate,
`generateRecommendation` fails with the "No articles found after
deduplication" error. -/
theorem dedup_fallback_only_at_title_step :
    (∀ (titles : List String) (prs : List (Idea × LookupOutcome)),
      prs ≠ [] → ideasToUse titles prs ≠ []) ∧
    (∀ (P : UrlParser) (enc : String → String) (prs : List (Idea × LookupOutcome))
      (urls titles : List String),
      prs ≠ [] → allCandidates P enc titles urls prs = [] →
      generateRecommendation P enc prs urls titles =
        .error "No articles found after deduplication") := by
  constructor
  · intro titles prs hne
    unfold ideasToUse
    split
    · assumption
    · exact hne
  · intro P enc prs urls titles hne hall
    cases prs with
    | nil => exact absurd rfl hne
    | cons pr rest => simp [generateRecommendation, hall]

/-- Witness for C2's amended statement: the concrete run of the
counterexample discharges both implications. -/
theorem dedup_fallback_only_at_title_step_witness :
    ideasToUse [] [(exIdeaA, LookupOutcome.threw)] ≠ [] ∧
    generateRecommendation exNoParse exEnc [(exIdeaA, .threw)]
      ["https://www.google.com/search?q=A AA "] [] =
      .error "No articles found after deduplication" :=
  ⟨dedup_fallback_only_at_title_step.1 [] [(exIdeaA, .threw)] (by simp),
   dedup_fallback_only_at_title_step.2 exNoParse exEnc [(exIdeaA, .threw)]
     ["https://www.google.com/search?q=A AA "] [] (by simp) rfl⟩

/-- Decomposition of the alternative-promotion loop: the promoted article is
a member of the list, its verification is valid, and every alternative
before it fails verification. -/
theorem firstValidAlt_decomp (vf : String → String → VerificationResult) :
    ∀ (alts : List ResolvedArticle) (alt : ResolvedArticle),
      firstValidAlt vf alts = some alt →
      ∃ pre post, alts = pre ++ alt :: post ∧
        (vf alt.url alt.idea.title).isValid = true ∧
        ∀ b ∈ pre, (vf b.url b.idea.title).isValid = false
  | [], alt => by
    intro h
    simp [firstValidAlt] at h
  | a :: rest, alt => by
    by_cases h : (vf a.url a.idea.title).isValid
    · intro heq
      rw [firstValidAlt, if_pos h] at heq
      obtain rfl : a = alt := by injection heq
      exact ⟨[], rest, rfl, h, by simp⟩
    · intro heq
      rw [firstValidAlt, if_neg h] at heq
      obtain ⟨pre, post, hsplit, hvalid, hprev⟩ := firstValidAlt_decomp vf rest alt heq
      refine ⟨a :: pre, post, by simp [hsplit], hvalid, ?_⟩
      intro b hb
      rcases List.mem_cons.mp hb with rfl | hb
      · simpa using h
      · exact hprev b hb

/-- C1 counterexample: primary with failing verification, one alternative
with passing verification — the delivered primary is the alternative, but
the delivered alternatives list is empty, so the demoted original primary
does not appear in it. -/
theorem demoted_primary_not_in_alternatives_cex :
    (selectDelivered exVerifier exArtP [exArtA1]).1 = exArtA1 ∧
    (selectDelivered exVerifier exArtP [exArtA1]).2 = [] ∧
    exArtP ∉ (selectDelivered exVerifier exArtP [exArtA1]).2 :=
  ⟨rfl, rfl, by decide⟩

/-- C1 (amended): if the primary's verification fails and some alternative
passes, the delivered primary is the first alternative (in list order) whose
verification is valid, and the delivered alternatives are exactly the
original alternatives with the promoted one removed — the demoted original
primary is dropped and does not appear in the delivered alternatives.  The
`Nodup` and non-membership hypotheses mirror the reference-distinctness of
the JS article objects. -/
theorem promote_first_valid_alternative :
    ∀ (vf : String → String → VerificationResult) (primary alt : ResolvedArticle)
      (alts : List ResolvedArticle),
      (vf primary.url primary.idea.title).isValid = false →
      firstValidAlt vf alts = some alt →
      alts.Nodup →
      primary ∉ alts →
      (selectDelivered vf primary alts).1 = alt ∧
      (selectDelivered vf primary alts).2 = alts.erase alt ∧
      primary ∉ (selectDelivered vf primary alts).2 ∧
      (∃ pre post, alts = pre ++ alt :: post ∧
        (vf alt.url alt.idea.title).isValid = true ∧
        ∀ b ∈ pre, (vf b.url b.idea.title).isValid = false) := by
  intro vf primary alt alts hpv hfv hnd hpm
  have hne : alts ≠ [] := by
    intro h
    subst h
    simp [firstValidAlt] at hfv
  have hsel : selectDelivered vf primary alts = (alt, alts.filter (fun a => a != alt)) := by
    unfold selectDelivered
    rw [if_pos ⟨by simp [hpv], hne⟩, hfv]
  have hfilter : alts.filter (fun a => a != alt) = alts.erase alt :=
    (List.Nodup.erase_eq_filter hnd alt).symm
  refine ⟨by rw [hsel], by rw [hsel, hfilter], ?_, firstValidAlt_decomp vf alts alt hfv⟩
  rw [hsel]
  intro hcontra
  exact hpm (List.mem_of_mem_filter hcontra)

/-- Witness for C1's amended statement: the concrete failing primary and
single passing alternative. -/
theorem promote_first_valid_alternative_witness :
    (selectDelivered exVerifier exArtP [exArtA1]).1 = exArtA1 ∧
    (selectDelivered exVerifier exArtP [exArtA1]).2 = [exArtA1].erase exArtA1 ∧
    exArtP ∉ (selectDelivered exVerifier exArtP [exArtA1]).2 ∧
    (∃ pre post, [exArtA1] = pre ++ exArtA1 :: post ∧
      (exVerifier exArtA1.url exArtA1.idea.title).isValid = true ∧
      ∀ b ∈ pre, (exVerifier b.url b.idea.title).isValid = false) :=
  promote_first_valid_alternative exVerifier exArtP exArtA1 [exArtA1]
    rfl rfl (by simp) (by decide)

/-! ### Link verifier theorems -/

/-- C6: a URL of the recognized search-fallback shape (hostname containing
`google.com` after lower-casing, raw URL containing `/search?`) makes
`verifyLink` return the fixed search-fallback result — valid, confidence
low, `isSearchFallback` set — for every network oracle, i.e. without any
network request influencing the outcome. -/
theorem search_fallback_short_circuit :
    ∀ (P : UrlParser) (H : HtmlOps) (net : NetEnv) (url expectedTitle : String)
      (parsed : UrlParts),
      P url = some parsed →
      strContains (jsToLower parsed.hostname) "google.com" = true →
      strContains url "/search?" = true →
      verifyLink P H net url expectedTitle =
        { isValid := true, confidence := "low", status := none, title := none,
          reason := some "Search fallback URL", isPaywall := false,
          isSearchFallback := true, isPdf := false } := by
  intro P H net url expectedTitle parsed hp hg hs
  have hsf : isSearchFallback P url = true := by
    simp [isSearchFallback, hp, hg, hs]
  simp [verifyLink, hsf]

/-- Witness for C6: a concrete Google search URL under a parser oracle that
recognises it, with a network oracle in which every request would throw. -/
theorem search_fallback_short_circuit_witness :
    verifyLink exGoogleParser exHtml (exNetThrow "ECONNREFUSED" "refused")
      "https://www.google.com/search?q=x" "" =
      { isValid := true, confidence := "low", status := none, title := none,
        reason := some "Search fallback URL", isPaywall := false,
        isSearchFallback := true, isPdf := false } :=
  search_fallback_short_circuit exGoogleParser exHtml
    (exNetThrow "ECONNREFUSED" "refused") "https://www.google.com/search?q=x" ""
    ⟨"https:", "www.google.com"⟩ rfl (by decide) (by decide)

/-- C5 counterexample: a DNS failure (`ENOTFOUND`) on a trusted domain is a
network-level failure of the verification fetch, yet `verifyLink` returns
`isValid = false` with confidence `high`, because the DNS branch of the
catch block precedes the trusted-domain branch. -/
theorem trusted_domain_dns_failure_cex :
    isTrustedDomain exTrustedParser "https://aeon.co/essays/x" = true ∧
    (verifyLink exTrustedParser exHtml
      (exNetThrow "ENOTFOUND" "getaddrinfo ENOTFOUND aeon.co")
      "https://aeon.co/essays/x" "").isValid = false ∧
    (verifyLink exTrustedParser exHtml
      (exNetThrow "ENOTFOUND" "getaddrinfo ENOTFOUND aeon.co")
      "https://aeon.co/essays/x" "").confidence = "high" := by
  refine ⟨by decide, by decide, by decide⟩

/-- C5 (amended): for a URL on a trusted or paywall domain, a network-level
failure of the verification fetch (both requests throw) yields
`isValid = true` with confidence `low` — provided the error is not one of
the specifically classified failures that take precedence in the catch
block: DNS failure (`ENOTFOUND`), connection refused (`ECONNREFUSED`), or a
timeout (`ECONNABORTED` or a message containing "timeout"). -/
theorem trusted_domain_network_failure_valid_low :
    ∀ (P : UrlParser) (H : HtmlOps) (url expectedTitle : String) (eh eg : NetError),
      (isTrustedDomain P url = true ∨ isPaywallDomain P url = true) →
      eg.code ≠ "ENOTFOUND" →
      eg.code ≠ "ECONNREFUSED" →
      eg.code ≠ "ECONNABORTED" →
      strContains eg.message "timeout" = false →
      (verifyLink P H ⟨.error eh, .error eg⟩ url expectedTitle).isValid = true ∧
      (verifyLink P H ⟨.error eh, .error eg⟩ url expectedTitle).confidence = "low" := by
  intro P H url expectedTitle eh eg htrust h1 h2 h3 h4
  by_cases hsf : isSearchFallback P url
  · simp [verifyLink, hsf]
  · have hget : (verifyLinkGet H (isTrustedDomain P url) (isPaywallDomain P url)
        expectedTitle (.error eg)).isValid = true ∧
        (verifyLinkGet H (isTrustedDomain P url) (isPaywallDomain P url)
          expectedTitle (.error eg)).confidence = "low" := by
      unfold verifyLinkGet
      dsimp only
      rw [if_neg h1, if_neg h2,
        if_neg (by simp [h3, h4] : ¬(eg.code = "ECONNABORTED" ∨ strContains eg.message "timeout" = true))]
      by_cases hssl : strContains eg.code "SSL" = true ∨ strContains eg.code "CERT" = true
      · rw [if_pos hssl]
        exact ⟨rfl, rfl⟩
      · rw [if_neg hssl,
          if_pos (by rcases htrust with h | h <;> simp [h] :
            isPaywallDomain P url = true ∨ isTrustedDomain P url = true)]
        exact ⟨rfl, rfl⟩
    simpa [verifyLink, hsf] using hget

/-- Witness for C5's amended statement: a connection-reset error on a
trusted domain. -/
theorem trusted_domain_network_failure_valid_low_witness :
    (verifyLink exTrustedParser exHtml
      ⟨.error ⟨"ECONNRESET", "socket hang up"⟩, .error ⟨"ECONNRESET", "socket hang up"⟩⟩
      "https://aeon.co/essays/x" "").isValid = true ∧
    (verifyLink exTrustedParser exHtml
      ⟨.error ⟨"ECONNRESET", "socket hang up"⟩, .error ⟨"ECONNRESET", "socket hang up"⟩⟩
      "https://aeon.co/essays/x" "").confidence = "low" :=
  trusted_domain_network_failure_valid_low exTrustedParser exHtml
    "https://aeon.co/essays/x" "" ⟨"ECONNRESET", "socket hang up"⟩
    ⟨"ECONNRESET", "socket hang up"⟩ (Or.inl (by decide))
    (by decide) (by decide) (by decide) (by decide)

/-- C10: every `VerificationResult` either copy of `verifyLink` returns has
confidence `high`, `medium` or `low` — the `failed` tier of the
`VerificationResult` type is never produced, for any URL parser behaviour,
HTML-helper behaviour, expected title, HTTP status, or thrown network
error. -/
theorem confidence_never_failed :
    ∀ (P : UrlParser) (H : HtmlOps) (net : NetEnv) (url expectedTitle : String)
      (res : Except NetError GetResponse),
      (verifyLink P H net url expectedTitle).confidence ∈ ["high", "medium", "low"] ∧
      (p11VerifyLink P res url expectedTitle).confidence ∈ ["high", "medium", "low"] := by
  intro P H net url expectedTitle res
  have hget : ∀ (b1 b2 : Bool) (r : Except NetError GetResponse),
      (verifyLinkGet H b1 b2 expectedTitle r).confidence ∈ ["high", "medium", "low"] := by
    intro b1 b2 r
    unfold verifyLinkGet
    rcases r with e | resp
    · dsimp only
      (repeat' split) <;> simp
    · dsimp only
      (repeat' split) <;> simp
  constructor
  · unfold verifyLink
    split
    · simp
    · split
      · rename_i hR hEq
        by_cases c1 : 200 ≤ hR.status ∧ hR.status < 400
        · by_cases c2 : strContains (jsToLower hR.contentType) "pdf" = true
          · simp [c1, c2]
          · by_cases c3 : isTrustedDomain P url = true ∨ isPaywallDomain P url = true
            · by_cases c4 : isTrustedDomain P url = true
              · simp [c1, c2, c4]
              · have hp : isPaywallDomain P url = true := c3.resolve_left c4
                simp [c1, c2, c4, hp]
            · rw [if_pos c1, if_neg c2, if_neg c3]
              exact hget _ _ _
        · by_cases c5 : hR.status = 404 ∨ hR.status = 410
          · simp [c1, c5]
          · rw [if_neg c1, if_neg c5]
            exact hget _ _ _
      · exact hget _ _ _
  · unfold p11VerifyLink
    (repeat' split) <;> simp <;> (repeat' split) <;> simp

end Essai
